import Mathlib

/-!
Shallow embedding of `src/topography.rs` from the FishSim repository.

Modelling conventions:
* `f64` values are embedded as exact rationals (`ℚ`); all constants of the
  source (`0.12`, `-0.5`, …) are exactly representable.
* The Perlin noise field `perlin.get([x*scale, y*scale])` is abstracted as a
  function `noise : ℕ → ℕ → ℚ` of the grid coordinates; it is a deterministic
  function of the seed and scale in the source, so theorems quantify over it.
* The ChaCha8 random stream is abstracted as `rng : ℕ → ℕ`, the sequence of
  raw draws; `rng.random_range(0..3)` is modelled as `rng k % 3` and
  `rng.random_range(0..=100)` as `rng (k+1) % 101`, with `k` the number of
  draws consumed so far.  As in the source, draws happen only on water cells.
* Rust panics (`expect`, `unreachable!`) are modelled by `Option`: a function
  that can panic returns `none` exactly on the panicking inputs.
-/

def DEPTH_MIN : ℚ := 0
def DEPTH_MAX : ℚ := 15
def NOISE_MIN : ℚ := -1
/-- In the source: `NOISE_MIN + 0.5f64`, i.e. `-0.5`. -/
def NOISE_LAND_MIN : ℚ := NOISE_MIN + 0.5
def NOISE_MAX : ℚ := 1

inductive Vegetation where
  | Grass
  | Reeds
  | Mats
deriving DecidableEq, Repr

inductive DepthRangeName where
  | SuperShallow
  | Shallow
  | MidDepth
  | Deep
deriving DecidableEq, Repr

inductive BottomComposition where
  | Mud
  | Hard
  | Gravel
deriving DecidableEq, Repr

inductive Structure where
  | ChunkRock
  | Boulder
  | Timber
  | Brush
deriving DecidableEq, Repr

structure VegetationRate where
  vegetation : Vegetation
  rate : ℚ
  adjacency_rate : ℚ
deriving DecidableEq, Repr

structure DepthRange where
  min : ℚ
  max : ℚ
  vegetation_rates : List VegetationRate
  name : DepthRangeName
deriving DecidableEq, Repr

/-- Embeds `DepthRange::get_vegetation_rate`.  The Rust predicate is
`matches!(&x.vegetation, veg)`; there `veg` is an irrefutable *binding*
pattern (it shadows the parameter rather than comparing with it), so the
predicate is `true` on every entry and `find` returns the first table entry.
The embedding keeps that behaviour literally: the closure ignores its
argument and returns `true`.  The trailing `none` models the
`.expect("Vegetation must be present")` panic (unreachable for the non-empty
tables of `DEPTH_RANGES`). -/
def DepthRange.get_vegetation_rate (r : DepthRange) (veg : Vegetation)
    (adjacent : Bool) : Option ℚ :=
  match r.vegetation_rates.find? (fun _x => true) with
  | some rates => some (if adjacent then rates.adjacency_rate else rates.rate)
  | none => none

/-- The static band table `DEPTH_RANGES` from the source, verbatim. -/
def DEPTH_RANGES : List DepthRange := [
  { min := DEPTH_MIN,
    max := 5,
    vegetation_rates := [
      { vegetation := Vegetation.Grass, rate := 0.1, adjacency_rate := 0.45 },
      { vegetation := Vegetation.Reeds, rate := 0.2, adjacency_rate := 0.75 },
      { vegetation := Vegetation.Mats, rate := 0.1, adjacency_rate := 0.75 }],
    name := DepthRangeName.SuperShallow },
  { min := 5,
    max := 7,
    vegetation_rates := [
      { vegetation := Vegetation.Grass, rate := 0.2, adjacency_rate := 0.65 },
      { vegetation := Vegetation.Reeds, rate := 0.2, adjacency_rate := 0.4 },
      { vegetation := Vegetation.Mats, rate := 0.2, adjacency_rate := 0.75 }],
    name := DepthRangeName.Shallow },
  { min := 7,
    max := 10,
    vegetation_rates := [
      { vegetation := Vegetation.Grass, rate := 0.12, adjacency_rate := 0.45 },
      { vegetation := Vegetation.Reeds, rate := 0, adjacency_rate := 0 },
      { vegetation := Vegetation.Mats, rate := 0.12, adjacency_rate := 0.45 }],
    name := DepthRangeName.MidDepth },
  { min := 10,
    max := DEPTH_MAX,
    vegetation_rates := [
      { vegetation := Vegetation.Grass, rate := 0.05, adjacency_rate := 0.20 },
      { vegetation := Vegetation.Reeds, rate := 0, adjacency_rate := 0 },
      { vegetation := Vegetation.Mats, rate := 0.05, adjacency_rate := 0.20 }],
    name := DepthRangeName.Deep }]

structure NoiseDepth where
  val : ℚ
deriving DecidableEq, Repr

/-- Embeds `NoiseDepth::is_land`: `self.0 < NOISE_LAND_MIN`. -/
def NoiseDepth.is_land (n : NoiseDepth) : Bool :=
  decide (n.val < NOISE_LAND_MIN)

structure Depth where
  val : ℚ
deriving DecidableEq, Repr

/-- The band-matching predicate of `Depth::depth_range`:
`self.0 >= x.min && self.0 <= x.max` (both ends inclusive). -/
def bandMatches (d : ℚ) (x : DepthRange) : Bool :=
  decide (d ≥ x.min) && decide (d ≤ x.max)

/-- Embeds `Depth::depth_range`: a linear scan returning the first matching
band; `none` models the `.expect("Depth range must exist")` panic. -/
def Depth.depth_range (d : Depth) : Option DepthRange :=
  DEPTH_RANGES.find? (bandMatches d.val)

/-- Embeds `impl From<NoiseDepth> for Depth`. -/
def Depth.ofNoise (noise_value : NoiseDepth) : Depth :=
  if noise_value.is_land then
    ⟨DEPTH_MIN - 1⟩
  else
    ⟨(noise_value.val - NOISE_LAND_MIN) / (NOISE_MAX - NOISE_LAND_MIN)
      * (DEPTH_MAX - DEPTH_MIN) + DEPTH_MIN⟩

/-- Embeds `TopographicWaterRegion`.  The source field named `structure` is a
Lean keyword; it is embedded as `struc` (the identifier the source itself
uses for it in `Display for TopographicWaterRegion`). -/
structure TopographicWaterRegion where
  bottom : BottomComposition
  vegetation : Option Vegetation
  struc : Option Structure
  depth : Depth
deriving DecidableEq, Repr

/-- Embeds `TopographicWaterRegion::has_vegetation_type`.  The source body is
`matches!(veg, vegetation_type)` where `vegetation_type` is an irrefutable
binding pattern (it shadows the parameter, it does not compare kinds), so the
`matches!` is `true` whenever the `vegetation` field is `Some`, regardless of
the stored kind and of the argument.  The embedding keeps that literally. -/
def TopographicWaterRegion.has_vegetation_type (w : TopographicWaterRegion)
    (vegetation_type : Vegetation) : Bool :=
  match w.vegetation with
  | some _veg => true
  | none => false

inductive TopographicRegion where
  | Land : TopographicRegion
  | Water : TopographicWaterRegion → TopographicRegion
deriving DecidableEq, Repr

inductive AdjacencyDirection where
  | Up
  | Left
deriving DecidableEq, Repr

/-- Embeds `get_adjacent`.  The `map.get(index).expect(...)` of the source
panics when `index` is out of range; the embedding returns what `List.get?`
returns, which is `none` exactly on those inputs (within `generate` the index
is always in range, see the length invariant lemmas below). -/
def get_adjacent (map : List TopographicRegion) (width x y : ℕ)
    (direction : AdjacencyDirection) : Option TopographicRegion :=
  if y = 0 ∧ direction = AdjacencyDirection.Up then none
  else if x = 0 ∧ direction = AdjacencyDirection.Left then none
  else
    let index : ℕ :=
      match direction with
      | AdjacencyDirection.Up => (y - 1) * width + x
      | AdjacencyDirection.Left => y * width + x - 1
    map.get? index

/-- The candidate draw of `generate`: `match rng.random_range(0..3)` with
arms `0 => Grass, 1 => Reeds, 2 => Mats, _ => unreachable!()`.  The argument
is always the draw reduced `% 3`, so the catch-all arm is exactly the `2`
case and the `unreachable!` never fires. -/
def vegOfNat : ℕ → Vegetation
  | 0 => Vegetation.Grass
  | 1 => Vegetation.Reeds
  | _ => Vegetation.Mats

/-- The `adjacent_vegetation` if-else chain of `generate`, verbatim: consult
the up-neighbor when it exists; only when it does not exist consult the
left-neighbor; otherwise `false`. -/
def adjacent_vegetation_flag (data : List TopographicRegion) (width x y : ℕ)
    (veg_type : Vegetation) : Bool :=
  match get_adjacent data width x y AdjacencyDirection.Up with
  | some TopographicRegion.Land => false
  | some (TopographicRegion.Water water) => water.has_vegetation_type veg_type
  | none =>
    match get_adjacent data width x y AdjacencyDirection.Left with
    | some TopographicRegion.Land => false
    | some (TopographicRegion.Water water) => water.has_vegetation_type veg_type
    | none => false

/-- Generation state: the regions emitted so far and the number of raw random
draws consumed so far. -/
structure GenState where
  data : List TopographicRegion
  draws : ℕ

/-- The body of `generate`'s inner loop for one cell `(x, y)`. -/
def genCell (noise : ℕ → ℕ → ℚ) (rng : ℕ → ℕ) (width : ℕ) (st : GenState)
    (x y : ℕ) : Option GenState :=
  let noise_depth : NoiseDepth := ⟨noise x y⟩
  if noise_depth.is_land then
    some ⟨st.data ++ [TopographicRegion.Land], st.draws⟩
  else
    let depth := Depth.ofNoise noise_depth
    let veg_type := vegOfNat (rng st.draws % 3)
    let adjacent_vegetation := adjacent_vegetation_flag st.data width x y veg_type
    match depth.depth_range with
    | none => none
    | some range =>
      match range.get_vegetation_rate veg_type adjacent_vegetation with
      | none => none
      | some vegetation_rate =>
        let veg_random : ℚ := (rng (st.draws + 1) % 101 : ℕ) / 100
        let vegetation : Option Vegetation :=
          if veg_random ≤ vegetation_rate then some veg_type else none
        some ⟨st.data ++
          [TopographicRegion.Water
            ⟨BottomComposition.Hard, vegetation, none, depth⟩],
          st.draws + 2⟩

/-- The double loop of `generate`, linearised: cell number `i` is the cell
`(i % width, i / width)` of the row-major traversal; `n` cells remain. -/
def genLoop (noise : ℕ → ℕ → ℚ) (rng : ℕ → ℕ) (width : ℕ) :
    ℕ → ℕ → GenState → Option GenState
  | _i, 0, st => some st
  | i, n + 1, st =>
    match genCell noise rng width st (i % width) (i / width) with
    | none => none
    | some st1 => genLoop noise rng width (i + 1) n st1

/-- Embeds `generate`: row-major traversal of the `width × height` grid. -/
def generate (noise : ℕ → ℕ → ℚ) (rng : ℕ → ℕ) (width height : ℕ) :
    Option (List TopographicRegion) :=
  match genLoop noise rng width 0 (width * height) ⟨[], 0⟩ with
  | none => none
  | some st => some st.data

/-- Embeds `TopographicMap` (the seed and scale of the source are folded into
the `noise` and `rng` functions). -/
structure TopographicMap where
  noise : ℕ → ℕ → ℚ
  rng : ℕ → ℕ
  width : ℕ
  height : ℕ
  data : List TopographicRegion

/-- Embeds `TopographicMap::new`: eagerly runs `generate` and stores the
result (`none` when generation panics). -/
def TopographicMap.new (noise : ℕ → ℕ → ℚ) (rng : ℕ → ℕ)
    (width height : ℕ) : Option TopographicMap :=
  (generate noise rng width height).map
    (fun data => ⟨noise, rng, width, height, data⟩)

/-- Glyphs of `impl Display for Vegetation` (the ANSI green colouring is
dropped: claims about the rendering are stated post ANSI-stripping). -/
def vegetationGlyph : Vegetation → Char
  | Vegetation.Grass => '„'
  | Vegetation.Reeds => '¥'
  | Vegetation.Mats => '¬'

/-- Glyphs of `impl Display for Structure` (colouring dropped). -/
def structureGlyph : Structure → Char
  | Structure.ChunkRock => '¤'
  | Structure.Boulder => '®'
  | Structure.Timber => '˜'
  | Structure.Brush => '×'

/-- Glyphs of `impl Display for DepthRange` (colouring dropped). -/
def depthRangeGlyph (r : DepthRange) : Char :=
  match r.name with
  | DepthRangeName.Deep => '█'
  | DepthRangeName.MidDepth => '▓'
  | DepthRangeName.Shallow => '▒'
  | DepthRangeName.SuperShallow => '░'

/-- Embeds `impl Display for Depth`: displays the owning band's glyph; the
`none` models the `depth_range` panic on an uncovered depth. -/
def depthGlyph (d : Depth) : Option Char :=
  (d.depth_range).map depthRangeGlyph

/-- Embeds the `Display` chain for one region: land is `#`; water shows its
vegetation if present, else its structure if present, else its depth band. -/
def regionGlyph : TopographicRegion → Option Char
  | TopographicRegion.Land => some '#'
  | TopographicRegion.Water w =>
    match w.vegetation with
    | some veg => some (vegetationGlyph veg)
    | none =>
      match w.struc with
      | some s => some (structureGlyph s)
      | none => depthGlyph w.depth

/-- Threads the possible panics of a list of fallible computations: `some`
exactly when every element is `some`. -/
def sequenceOption {α : Type} : List (Option α) → Option (List α)
  | [] => some []
  | none :: _ => none
  | some a :: rest => (sequenceOption rest).map (fun l => a :: l)

/-- One row of `impl Display for TopographicMap`: the glyphs of the cells
`(x, y)` for `x < width`, read at index `y * width + x`; the `get?` models
the `.expect("Indexed element must exist")` panic. -/
def TopographicMap.fmtRow (m : TopographicMap) (y : ℕ) : Option (List Char) :=
  sequenceOption ((List.range m.width).map
    (fun x => (m.data.get? (y * m.width + x)).bind regionGlyph))

/-- The rows of `impl Display for TopographicMap`, outer loop over `y`. -/
def TopographicMap.fmtRows (m : TopographicMap) : Option (List (List Char)) :=
  sequenceOption ((List.range m.height).map (fun y => m.fmtRow y))

/-- Embeds `impl Display for TopographicMap` as a string: each row's glyphs
followed by one `writeln!` newline, concatenated in order; nothing is written
after the final row's newline. -/
def TopographicMap.fmtStr (m : TopographicMap) : Option String :=
  (m.fmtRows).map (fun rows => String.join (rows.map (fun r => String.mk r ++ "\n")))

/-- Modelled from the spec, for comparison with the code (claim C1): the
spec's adjacency rule, following §4.3 step 2 word for word: "true if the
up-neighbor exists and is water bearing the same vegetation kind; else, if
the up-neighbor is absent (first row) *or is land*, fall back to checking the
left-neighbor the same way; if neither neighbor exists `adjacent = false`".
"Bearing the same vegetation kind" is `vegetation = some veg_type`. -/
def spec_adjacent_rule (data : List TopographicRegion) (width x y : ℕ)
    (veg_type : Vegetation) : Bool :=
  match get_adjacent data width x y AdjacencyDirection.Up with
  | some (TopographicRegion.Water water) => water.vegetation == some veg_type
  | some TopographicRegion.Land =>
    match get_adjacent data width x y AdjacencyDirection.Left with
    | some (TopographicRegion.Water water) => water.vegetation == some veg_type
    | _ => false
  | none =>
    match get_adjacent data width x y AdjacencyDirection.Left with
    | some (TopographicRegion.Water water) => water.vegetation == some veg_type
    | _ => false

/-- The adjacency rule the code actually implements, stated independently of
`has_vegetation_type` (amended form of claim C1): when the up-neighbor exists
it alone decides — water with any vegetation present gives `true`, land or
bare water gives `false` with no fall-back; the left-neighbor is consulted
only on the first row; the stored kind is never compared with the candidate. -/
def amended_adjacent_rule (data : List TopographicRegion) (width x y : ℕ)
    (veg_type : Vegetation) : Bool :=
  match get_adjacent data width x y AdjacencyDirection.Up with
  | some (TopographicRegion.Water water) => water.vegetation.isSome
  | some TopographicRegion.Land => false
  | none =>
    match get_adjacent data width x y AdjacencyDirection.Left with
    | some (TopographicRegion.Water water) => water.vegetation.isSome
    | _ => false

/-- Decidable form of the claim-C9 invariant: a region is either land, or a
water region whose `structure` field is `None` and whose bottom is `Hard`. -/
def water_defaults_ok : TopographicRegion → Bool
  | TopographicRegion.Land => true
  | TopographicRegion.Water w =>
    w.struc.isNone && (w.bottom == BottomComposition.Hard)

/-! General lemmas about the embedded generator, shared by several of the
claim theorems below. -/

lemma ofNoise_val_linear (q : ℚ) (hw : NoiseDepth.is_land ⟨q⟩ = false) :
    (Depth.ofNoise ⟨q⟩).val = 10 * q + 5 := by
  rw [Depth.ofNoise, if_neg (by simp [hw])]
  show (q - NOISE_LAND_MIN) / (NOISE_MAX - NOISE_LAND_MIN)
      * (DEPTH_MAX - DEPTH_MIN) + DEPTH_MIN = 10 * q + 5
  rw [NOISE_LAND_MIN, NOISE_MIN, NOISE_MAX, DEPTH_MAX, DEPTH_MIN]
  norm_num
  ring

lemma ofNoise_val_bounds (q : ℚ) (hlo : NOISE_LAND_MIN ≤ q) (hhi : q ≤ NOISE_MAX) :
    DEPTH_MIN ≤ (Depth.ofNoise ⟨q⟩).val ∧ (Depth.ofNoise ⟨q⟩).val ≤ DEPTH_MAX := by
  have hw : NoiseDepth.is_land ⟨q⟩ = false := by
    simp only [NoiseDepth.is_land, decide_eq_false_iff_not, not_lt]
    exact hlo
  rw [ofNoise_val_linear q hw]
  rw [NOISE_LAND_MIN, NOISE_MIN] at hlo
  rw [NOISE_MAX] at hhi
  rw [DEPTH_MIN, DEPTH_MAX]
  constructor <;> nlinarith

lemma depth_range_isSome_of_bounds (d : ℚ) (h0 : 0 ≤ d) (h15 : d ≤ 15) :
    (Depth.depth_range ⟨d⟩).isSome = true := by
  refine List.find?_isSome.mpr ?_
  unfold DEPTH_RANGES
  rcases le_or_lt d 5 with h | h
  · exact ⟨_, List.mem_cons_self _ _, by
      simp only [bandMatches, Bool.and_eq_true, decide_eq_true_eq, ge_iff_le, DEPTH_MIN]
      exact ⟨h0, h⟩⟩
  · rcases le_or_lt d 7 with h7 | h7
    · exact ⟨_, List.mem_cons_of_mem _ (List.mem_cons_self _ _), by
        simp only [bandMatches, Bool.and_eq_true, decide_eq_true_eq, ge_iff_le]
        exact ⟨h.le, h7⟩⟩
    · rcases le_or_lt d 10 with h10 | h10
      · exact ⟨_, List.mem_cons_of_mem _ (List.mem_cons_of_mem _ (List.mem_cons_self _ _)), by
          simp only [bandMatches, Bool.and_eq_true, decide_eq_true_eq, ge_iff_le]
          exact ⟨h7.le, h10⟩⟩
      · exact ⟨_, List.mem_cons_of_mem _ (List.mem_cons_of_mem _
          (List.mem_cons_of_mem _ (List.mem_cons_self _ _))), by
          simp only [bandMatches, Bool.and_eq_true, decide_eq_true_eq, ge_iff_le, DEPTH_MAX]
          exact ⟨h10.le, h15⟩⟩

lemma genCell_shape (noise : ℕ → ℕ → ℚ) (rng : ℕ → ℕ) (width : ℕ) (st : GenState)
    (x y : ℕ) (st1 : GenState) (h : genCell noise rng width st x y = some st1) :
    ∃ r : TopographicRegion, st1.data = st.data ++ [r] ∧
      water_defaults_ok r = true ∧ (regionGlyph r).isSome = true := by
  unfold genCell at h
  simp only [] at h
  split at h
  · refine ⟨TopographicRegion.Land, ?_, rfl, rfl⟩
    cases h
    rfl
  · split at h
    · exact absurd h (by simp)
    · split at h
      · exact absurd h (by simp)
      · rename_i oR R heqR oV vrate heqRate
        cases h
        refine ⟨_, rfl, rfl, ?_⟩
        simp only [regionGlyph]
        split
        · rfl
        · simp [depthGlyph, heqR]

lemma genLoop_length_all (noise : ℕ → ℕ → ℚ) (rng : ℕ → ℕ) (width : ℕ) :
    ∀ (n i : ℕ) (st st1 : GenState), genLoop noise rng width i n st = some st1 →
      st1.data.length = st.data.length + n ∧
      ((∀ r ∈ st.data, water_defaults_ok r = true ∧ (regionGlyph r).isSome = true) →
        ∀ r ∈ st1.data, water_defaults_ok r = true ∧ (regionGlyph r).isSome = true) := by
  intro n
  induction n with
  | zero =>
    intro i st st1 h
    unfold genLoop at h
    cases h
    exact ⟨rfl, fun hP => hP⟩
  | succ n ih =>
    intro i st st1 h
    unfold genLoop at h
    split at h
    · exact absurd h (by simp)
    · rename_i oc st2 heq
      obtain ⟨r, hdata, hok, hglyph⟩ := genCell_shape noise rng width st _ _ st2 heq
      obtain ⟨hlen, hall⟩ := ih (i + 1) st2 st1 h
      refine ⟨?_, ?_⟩
      · rw [hlen, hdata, List.length_append]
        simp
        omega
      · intro hP
        apply hall
        intro r1 hr1
        rw [hdata] at hr1
        rcases List.mem_append.mp hr1 with hm1 | hm2
        · exact hP _ hm1
        · rw [List.mem_singleton] at hm2
          subst hm2
          exact ⟨hok, hglyph⟩

lemma generate_length_all (noise : ℕ → ℕ → ℚ) (rng : ℕ → ℕ) (width height : ℕ)
    (data : List TopographicRegion) (h : generate noise rng width height = some data) :
    data.length = width * height ∧
    ∀ r ∈ data, water_defaults_ok r = true ∧ (regionGlyph r).isSome = true := by
  unfold generate at h
  split at h
  · exact absurd h (by simp)
  · rename_i st hst
    cases h
    obtain ⟨hlen, hall⟩ := genLoop_length_all noise rng width (width * height) 0 ⟨[], 0⟩ st hst
    refine ⟨by simpa using hlen, hall ?_⟩
    intro r hr
    simp at hr

lemma sequenceOption_isSome {α : Type} (l : List (Option α))
    (h : ∀ o ∈ l, o.isSome = true) :
    ∃ l1, sequenceOption l = some l1 ∧ l1.length = l.length := by
  induction l with
  | nil => exact ⟨[], rfl, rfl⟩
  | cons o rest ih =>
    cases o with
    | none => exact absurd (h none (List.mem_cons_self _ _)) (by simp)
    | some a =>
      obtain ⟨l1, h1, h2⟩ := ih (fun o ho => h o (List.mem_cons_of_mem _ ho))
      exact ⟨a :: l1, by simp [sequenceOption, h1], by simp [h2]⟩

lemma sequenceOption_mem {α : Type} (l : List (Option α)) (l1 : List α)
    (h : sequenceOption l = some l1) : ∀ b ∈ l1, some b ∈ l := by
  induction l generalizing l1 with
  | nil =>
    cases h
    simp
  | cons o rest ih =>
    cases o with
    | none => simp [sequenceOption] at h
    | some a =>
      simp only [sequenceOption] at h
      cases hr : sequenceOption rest with
      | none => rw [hr] at h; simp at h
      | some l2 =>
        rw [hr] at h
        simp only [Option.map_some'] at h
        cases h
        intro b hb
        rcases List.mem_cons.mp hb with rfl | hb2
        · exact List.mem_cons_self _ _
        · exact List.mem_cons_of_mem _ (ih l2 hr b hb2)

lemma fmtRow_some (m : TopographicMap) (hlen : m.data.length = m.width * m.height)
    (hok : ∀ r ∈ m.data, (regionGlyph r).isSome = true) (y : ℕ) (hy : y < m.height) :
    ∃ row, m.fmtRow y = some row ∧ row.length = m.width := by
  have hall : ∀ o ∈ (List.range m.width).map
      (fun x => (m.data.get? (y * m.width + x)).bind regionGlyph), o.isSome = true := by
    intro o ho
    simp only [List.mem_map, List.mem_range] at ho
    obtain ⟨x, hx, rfl⟩ := ho
    have hidx : y * m.width + x < m.data.length := by
      rw [hlen]
      calc y * m.width + x < y * m.width + m.width := by omega
        _ = (y + 1) * m.width := by ring
        _ ≤ m.height * m.width := Nat.mul_le_mul_right _ hy
        _ = m.width * m.height := Nat.mul_comm _ _
    rw [List.get?_eq_get hidx]
    simpa using hok _ (List.get_mem _ _ _)
  obtain ⟨row, h1, h2⟩ := sequenceOption_isSome _ hall
  exact ⟨row, h1, by simpa using h2⟩

lemma gen_run_grass : generate (fun _ _ => 0) (fun _ => 0) 1 1 =
    some [TopographicRegion.Water ⟨BottomComposition.Hard, some Vegetation.Grass, none, ⟨5⟩⟩] := by
  have hland : NoiseDepth.is_land ⟨0⟩ = false := by
    norm_num [NoiseDepth.is_land, NOISE_LAND_MIN, NOISE_MIN]
  have hdep : Depth.ofNoise ⟨0⟩ = ⟨5⟩ := by
    rw [Depth.ofNoise, if_neg (by simp [hland])]
    norm_num [NOISE_LAND_MIN, NOISE_MIN, NOISE_MAX, DEPTH_MAX, DEPTH_MIN, Depth.mk.injEq]
  have hrange : Depth.depth_range ⟨5⟩ =
      some ⟨0, 5, [⟨Vegetation.Grass, 0.1, 0.45⟩, ⟨Vegetation.Reeds, 0.2, 0.75⟩,
        ⟨Vegetation.Mats, 0.1, 0.75⟩], DepthRangeName.SuperShallow⟩ := by
    norm_num [Depth.depth_range, DEPTH_RANGES, List.find?, bandMatches, DEPTH_MIN, DEPTH_MAX]
  simp [generate, genLoop, genCell, hland, hdep, hrange,
    DepthRange.get_vegetation_rate, List.find?, vegOfNat,
    adjacent_vegetation_flag, get_adjacent]
  norm_num

lemma gen_run_land : generate (fun _ _ => -1) (fun _ => 0) 2 2 =
    some [TopographicRegion.Land, TopographicRegion.Land, TopographicRegion.Land,
      TopographicRegion.Land] := by
  have hland : NoiseDepth.is_land ⟨-1⟩ = true := by
    norm_num [NoiseDepth.is_land, NOISE_LAND_MIN, NOISE_MIN]
  simp [generate, genLoop, genCell, hland]

/-! Claim theorems. -/

/-- Claim C1, counterexample.  The claim says the adjacency flag follows the
spec rule, under which an up-neighbor that is land falls back to the
left-neighbor, and a water neighbor counts only when it bears the *same*
vegetation kind as the candidate.  Both parts fail on the code.  First
conjunct: at cell (1,1) of a width-2 grid whose up-neighbor is land and
whose left-neighbor is water bearing Grass, with candidate Grass, the code
computes `false` while the spec rule computes `true` (no fall-back past a
land up-neighbor).  Second conjunct: at cell (0,1) of a width-1 grid whose
up-neighbor is water bearing Grass, with candidate Reeds, the code computes
`true` while the spec rule computes `false` (the stored kind is never
compared). -/
theorem C1_counterexample :
    (adjacent_vegetation_flag
        [TopographicRegion.Land, TopographicRegion.Land,
          TopographicRegion.Water ⟨BottomComposition.Hard, some Vegetation.Grass, none, ⟨1⟩⟩]
        2 1 1 Vegetation.Grass = false ∧
      spec_adjacent_rule
        [TopographicRegion.Land, TopographicRegion.Land,
          TopographicRegion.Water ⟨BottomComposition.Hard, some Vegetation.Grass, none, ⟨1⟩⟩]
        2 1 1 Vegetation.Grass = true) ∧
    (adjacent_vegetation_flag
        [TopographicRegion.Water ⟨BottomComposition.Hard, some Vegetation.Grass, none, ⟨1⟩⟩]
        1 0 1 Vegetation.Reeds = true ∧
      spec_adjacent_rule
        [TopographicRegion.Water ⟨BottomComposition.Hard, some Vegetation.Grass, none, ⟨1⟩⟩]
        1 0 1 Vegetation.Reeds = false) := by
  decide

/-- Claim C1, amended: the adjacency flag of `generate` equals the amended
rule — when the up-neighbor exists (y > 0) it alone decides, `true` iff it is
water with any vegetation present (the stored kind is not compared with the
candidate, an up-neighbor that is land gives `false` without consulting the
left-neighbor); the left-neighbor is consulted only on the first row, the
same way; cell (0,0) gets `false`. -/
theorem C1_adjacency_amended (data : List TopographicRegion) (width x y : ℕ)
    (veg_type : Vegetation) :
    adjacent_vegetation_flag data width x y veg_type =
      amended_adjacent_rule data width x y veg_type := by
  unfold adjacent_vegetation_flag amended_adjacent_rule
  cases h : get_adjacent data width x y AdjacencyDirection.Up with
  | none =>
    cases h2 : get_adjacent data width x y AdjacencyDirection.Left with
    | none => rfl
    | some r =>
      cases r with
      | Land => rfl
      | Water w =>
        obtain ⟨b, v, s, d⟩ := w
        cases v <;> rfl
  | some r =>
    cases r with
    | Land => rfl
    | Water w =>
      obtain ⟨b, v, s, d⟩ := w
      cases v <;> rfl

/-- Claim C2: evaluation of the code at the failing input.  In the MidDepth
band (`DEPTH_RANGES` index 2) the Reeds table entry is `(0, 0)`, yet
`get_vegetation_rate` with candidate Reeds returns `0.12` (not adjacent) and
`0.45` (adjacent) — the Grass entry, the first of the table — because the
`matches!(&x.vegetation, veg)` predicate binds instead of comparing and so
`find` stops at the first entry regardless of the candidate. -/
theorem C2_rate_lookup_ignores_candidate :
    (DEPTH_RANGES.get? 2).map (fun r =>
      (r.name, r.get_vegetation_rate Vegetation.Reeds false,
       r.get_vegetation_rate Vegetation.Reeds true,
       r.vegetation_rates.find? (fun v => v.vegetation == Vegetation.Reeds))) =
    some (DepthRangeName.MidDepth, some 0.12, some 0.45,
      some ⟨Vegetation.Reeds, 0, 0⟩) := by
  simp [DEPTH_RANGES, DepthRange.get_vegetation_rate, List.find?]
  rfl

/-- Claim C3, counterexample: the bands do not partition the valid depth
range without overlaps — each interior boundary value 5, 7, 10 is matched by
two bands (both bounds of every band are inclusive, and adjacent bands share
an endpoint), so "exactly one band matches" fails there. -/
theorem C3_boundary_overlap_counterexample :
    DEPTH_RANGES.countP (bandMatches 5) = 2 ∧
    DEPTH_RANGES.countP (bandMatches 7) = 2 ∧
    DEPTH_RANGES.countP (bandMatches 10) = 2 := by
  refine ⟨?_, ?_, ?_⟩ <;>
    simp [DEPTH_RANGES, List.countP_cons, List.countP_nil, bandMatches,
      DEPTH_MIN, DEPTH_MAX] <;> norm_num

/-- Claim C3, amended: for every depth value in `[DEPTH_MIN, DEPTH_MAX]` at
least one band of the static table matches — exactly one except at the
interior boundary values 5, 7 and 10, each of which is matched by exactly
the two adjacent bands (the linear scan of `depth_range` resolves the tie to
the first). -/
theorem C3_band_partition_amended (d : ℚ) (h0 : 0 ≤ d) (h15 : d ≤ 15) :
    DEPTH_RANGES.countP (bandMatches d) =
      if d = 5 ∨ d = 7 ∨ d = 10 then 2 else 1 := by
  simp only [DEPTH_RANGES, List.countP_cons, List.countP_nil, bandMatches,
    Bool.and_eq_true, decide_eq_true_eq, ge_iff_le, DEPTH_MIN, DEPTH_MAX]
  rcases lt_trichotomy d 5 with h | rfl | h5
  · rw [if_pos (show 0 ≤ d ∧ d ≤ 5 from ⟨h0, h.le⟩),
        if_neg (show ¬(5 ≤ d ∧ d ≤ 7) from fun hc => by linarith [hc.1]),
        if_neg (show ¬(7 ≤ d ∧ d ≤ 10) from fun hc => by linarith [hc.1]),
        if_neg (show ¬(10 ≤ d ∧ d ≤ 15) from fun hc => by linarith [hc.1]),
        if_neg (show ¬(d = 5 ∨ d = 7 ∨ d = 10) by rintro (rfl | rfl | rfl) <;> linarith)]
  · rw [if_pos (show (0:ℚ) ≤ 5 ∧ (5:ℚ) ≤ 5 by norm_num),
        if_pos (show (5:ℚ) ≤ 5 ∧ (5:ℚ) ≤ 7 by norm_num),
        if_neg (show ¬((7:ℚ) ≤ 5 ∧ (5:ℚ) ≤ 10) by norm_num),
        if_neg (show ¬((10:ℚ) ≤ 5 ∧ (5:ℚ) ≤ 15) by norm_num),
        if_pos (Or.inl rfl)]
  · rcases lt_trichotomy d 7 with h | rfl | h7
    · rw [if_neg (show ¬(0 ≤ d ∧ d ≤ 5) from fun hc => by linarith [hc.2]),
          if_pos (show 5 ≤ d ∧ d ≤ 7 from ⟨h5.le, h.le⟩),
          if_neg (show ¬(7 ≤ d ∧ d ≤ 10) from fun hc => by linarith [hc.1]),
          if_neg (show ¬(10 ≤ d ∧ d ≤ 15) from fun hc => by linarith [hc.1]),
          if_neg (show ¬(d = 5 ∨ d = 7 ∨ d = 10) by rintro (rfl | rfl | rfl) <;> linarith)]
    · rw [if_neg (show ¬((0:ℚ) ≤ 7 ∧ (7:ℚ) ≤ 5) by norm_num),
          if_pos (show (5:ℚ) ≤ 7 ∧ (7:ℚ) ≤ 7 by norm_num),
          if_pos (show (7:ℚ) ≤ 7 ∧ (7:ℚ) ≤ 10 by norm_num),
          if_neg (show ¬((10:ℚ) ≤ 7 ∧ (7:ℚ) ≤ 15) by norm_num),
          if_pos (Or.inr (Or.inl rfl))]
    · rcases lt_trichotomy d 10 with h | rfl | h10
      · rw [if_neg (show ¬(0 ≤ d ∧ d ≤ 5) from fun hc => by linarith [hc.2]),
            if_neg (show ¬(5 ≤ d ∧ d ≤ 7) from fun hc => by linarith [hc.2]),
            if_pos (show 7 ≤ d ∧ d ≤ 10 from ⟨h7.le, h.le⟩),
            if_neg (show ¬(10 ≤ d ∧ d ≤ 15) from fun hc => by linarith [hc.1]),
            if_neg (show ¬(d = 5 ∨ d = 7 ∨ d = 10) by rintro (rfl | rfl | rfl) <;> linarith)]
      · rw [if_neg (show ¬((0:ℚ) ≤ 10 ∧ (10:ℚ) ≤ 5) by norm_num),
            if_neg (show ¬((5:ℚ) ≤ 10 ∧ (10:ℚ) ≤ 7) by norm_num),
            if_pos (show (7:ℚ) ≤ 10 ∧ (10:ℚ) ≤ 10 by norm_num),
            if_pos (show (10:ℚ) ≤ 10 ∧ (10:ℚ) ≤ 15 by norm_num),
            if_pos (Or.inr (Or.inr rfl))]
      · rw [if_neg (show ¬(0 ≤ d ∧ d ≤ 5) from fun hc => by linarith [hc.2]),
            if_neg (show ¬(5 ≤ d ∧ d ≤ 7) from fun hc => by linarith [hc.2]),
            if_neg (show ¬(7 ≤ d ∧ d ≤ 10) from fun hc => by linarith [hc.2]),
            if_pos (show 10 ≤ d ∧ d ≤ 15 from ⟨h10.le, h15⟩),
            if_neg (show ¬(d = 5 ∨ d = 7 ∨ d = 10) by rintro (rfl | rfl | rfl) <;> linarith)]

/-- Claim C3, witness for the amended theorem, at the interior point 6. -/
theorem C3_band_partition_amended_witness :
    DEPTH_RANGES.countP (bandMatches 6) =
      if (6:ℚ) = 5 ∨ (6:ℚ) = 7 ∨ (6:ℚ) = 10 then 2 else 1 :=
  C3_band_partition_amended 6 (by norm_num) (by norm_num)

/-- Claim C4: evaluation of the code at a failing input, refuting "a kind
with a zero rate entry never appears".  With the noise sample 3/10 the single
cell of a 1×1 grid is water of depth 8, which resolves to the MidDepth band;
the random stream draws candidate Reeds (first draw 1) and a placement value
of 10/100 = 0.1; because the rate lookup returns the Grass entry (0.12)
instead of the Reeds entry (0), the cell is assigned Reeds — in a band whose
Reeds table entry is (0, 0), as the second conjunct shows. -/
theorem C4_reeds_appears_in_middepth :
    generate (fun _ _ => 3/10) (fun k => if k = 0 then 1 else 10) 1 1 =
      some [TopographicRegion.Water
        ⟨BottomComposition.Hard, some Vegetation.Reeds, none, ⟨8⟩⟩] ∧
    (Depth.depth_range ⟨8⟩).map (fun r =>
      (r.name, r.vegetation_rates.find? (fun v => v.vegetation == Vegetation.Reeds))) =
      some (DepthRangeName.MidDepth, some ⟨Vegetation.Reeds, 0, 0⟩) := by
  have hland : NoiseDepth.is_land ⟨3/10⟩ = false := by
    norm_num [NoiseDepth.is_land, NOISE_LAND_MIN, NOISE_MIN]
  have hdep : Depth.ofNoise ⟨3/10⟩ = ⟨8⟩ := by
    rw [Depth.ofNoise, if_neg (by simp [hland])]
    norm_num [NOISE_LAND_MIN, NOISE_MIN, NOISE_MAX, DEPTH_MAX, DEPTH_MIN, Depth.mk.injEq]
  have hrange : Depth.depth_range ⟨8⟩ =
      some ⟨7, 10, [⟨Vegetation.Grass, 0.12, 0.45⟩, ⟨Vegetation.Reeds, 0, 0⟩,
        ⟨Vegetation.Mats, 0.12, 0.45⟩], DepthRangeName.MidDepth⟩ := by
    norm_num [Depth.depth_range, DEPTH_RANGES, List.find?, bandMatches, DEPTH_MIN, DEPTH_MAX]
  constructor
  · simp [generate, genLoop, genCell, hland, hdep, hrange,
      DepthRange.get_vegetation_rate, List.find?, vegOfNat,
      adjacent_vegetation_flag, get_adjacent]
    norm_num
  · rw [hrange]
    simp [List.find?]
    rfl

/-- Claim C5: a cell is land exactly when its raw noise sample is strictly
below `NOISE_LAND_MIN = -0.5`; otherwise its depth is the linear remap
`(noise - NOISE_LAND_MIN) / (NOISE_MAX - NOISE_LAND_MIN) * (DEPTH_MAX -
DEPTH_MIN) + DEPTH_MIN`, which for samples in `[-0.5, 1]` lies within
`[DEPTH_MIN, DEPTH_MAX] = [0, 15]`. -/
theorem C5_land_threshold_and_depth_remap (q : ℚ) :
    NOISE_LAND_MIN = -0.5 ∧
    (NoiseDepth.is_land ⟨q⟩ = true ↔ q < NOISE_LAND_MIN) ∧
    (NoiseDepth.is_land ⟨q⟩ = false →
      (Depth.ofNoise ⟨q⟩).val =
        (q - NOISE_LAND_MIN) / (NOISE_MAX - NOISE_LAND_MIN)
          * (DEPTH_MAX - DEPTH_MIN) + DEPTH_MIN) ∧
    (NOISE_LAND_MIN ≤ q → q ≤ NOISE_MAX →
      DEPTH_MIN ≤ (Depth.ofNoise ⟨q⟩).val ∧ (Depth.ofNoise ⟨q⟩).val ≤ DEPTH_MAX) := by
  refine ⟨by rw [NOISE_LAND_MIN, NOISE_MIN]; norm_num, ?_, ?_, ?_⟩
  · simp [NoiseDepth.is_land]
  · intro hw
    rw [Depth.ofNoise, if_neg (by simp [hw])]
  · intro hlo hhi
    exact ofNoise_val_bounds q hlo hhi

/-- Claim C5, witness at the sample 0: the remapped depth lies in the valid
depth range. -/
theorem C5_land_threshold_and_depth_remap_witness :
    DEPTH_MIN ≤ (Depth.ofNoise ⟨0⟩).val ∧ (Depth.ofNoise ⟨0⟩).val ≤ DEPTH_MAX :=
  (C5_land_threshold_and_depth_remap 0).2.2.2
    (by rw [NOISE_LAND_MIN, NOISE_MIN]; norm_num) (by rw [NOISE_MAX]; norm_num)

/-- Claim C6: generation (and the rendering of the constructed map) is a
pure function of its parameters — two runs with equal noise field, equal
random stream and equal dimensions produce equal region sequences and equal
rendered output.  In this embedding the seed and scale enter only through
the `noise` and `rng` functions, which the source derives deterministically
from the seed (`Perlin::new(seed)`, `ChaCha8Rng::seed_from_u64(seed)`), so
fixing the tuple (seed, width, height, scale) fixes the output. -/
theorem C6_generation_deterministic (noise1 noise2 : ℕ → ℕ → ℚ)
    (rng1 rng2 : ℕ → ℕ) (w1 w2 h1 h2 : ℕ)
    (hn : noise1 = noise2) (hr : rng1 = rng2) (hw : w1 = w2) (hh : h1 = h2) :
    generate noise1 rng1 w1 h1 = generate noise2 rng2 w2 h2 ∧
    (TopographicMap.new noise1 rng1 w1 h1).map TopographicMap.fmtStr =
      (TopographicMap.new noise2 rng2 w2 h2).map TopographicMap.fmtStr := by
  subst hn
  subst hr
  subst hw
  subst hh
  exact ⟨rfl, rfl⟩

/-- Claim C6, witness: two identical 1×1 runs agree. -/
theorem C6_generation_deterministic_witness :
    generate (fun _ _ => -1) (fun _ => 0) 1 1 = generate (fun _ _ => -1) (fun _ => 0) 1 1 ∧
    (TopographicMap.new (fun _ _ => -1) (fun _ => 0) 1 1).map TopographicMap.fmtStr =
      (TopographicMap.new (fun _ _ => -1) (fun _ => 0) 1 1).map TopographicMap.fmtStr :=
  C6_generation_deterministic _ _ _ _ _ _ _ _ rfl rfl rfl rfl

/-- Claim C7: a successful generation run yields exactly `width * height`
regions addressed by `y * width + x`, and the rendering of that map yields
exactly `height` rows of exactly `width` glyphs each (ANSI colouring
stripped), the output string being each row followed by exactly one newline
with nothing after the final row's newline. -/
theorem C7_dimensions_and_rendering (noise : ℕ → ℕ → ℚ) (rng : ℕ → ℕ)
    (width height : ℕ) (data : List TopographicRegion)
    (h : generate noise rng width height = some data) :
    data.length = width * height ∧
    ∃ rows, TopographicMap.fmtRows ⟨noise, rng, width, height, data⟩ = some rows ∧
      rows.length = height ∧ (∀ row ∈ rows, row.length = width) ∧
      TopographicMap.fmtStr ⟨noise, rng, width, height, data⟩ =
        some (String.join (rows.map (fun row => String.mk row ++ "\n"))) := by
  obtain ⟨hlen, hall⟩ := generate_length_all noise rng width height data h
  have hok : ∀ r ∈ data, (regionGlyph r).isSome = true := fun r hr => (hall r hr).2
  have hrowsome : ∀ o ∈ (List.range height).map
      (fun y => TopographicMap.fmtRow ⟨noise, rng, width, height, data⟩ y), o.isSome = true := by
    intro o ho
    simp only [List.mem_map, List.mem_range] at ho
    obtain ⟨y, hy, rfl⟩ := ho
    obtain ⟨row, h1, _⟩ := fmtRow_some ⟨noise, rng, width, height, data⟩ hlen hok y hy
    simp [h1]
  obtain ⟨rows, h1, h2⟩ := sequenceOption_isSome _ hrowsome
  have hfr : TopographicMap.fmtRows ⟨noise, rng, width, height, data⟩ = some rows := h1
  refine ⟨hlen, rows, hfr, by simpa using h2, ?_, ?_⟩
  · intro row hrow
    have hmem : some row ∈ (List.range height).map
        (fun y => TopographicMap.fmtRow ⟨noise, rng, width, height, data⟩ y) :=
      sequenceOption_mem _ _ h1 row hrow
    simp only [List.mem_map, List.mem_range] at hmem
    obtain ⟨y, hy, hrw⟩ := hmem
    obtain ⟨row2, hr2, hl2⟩ := fmtRow_some ⟨noise, rng, width, height, data⟩ hlen hok y hy
    rw [hr2] at hrw
    exact (Option.some.inj hrw) ▸ hl2
  · rw [TopographicMap.fmtStr, hfr]
    rfl

/-- Claim C7, witness: a 2×2 all-land run has exactly 2 * 2 regions. -/
theorem C7_dimensions_and_rendering_witness :
    ([TopographicRegion.Land, TopographicRegion.Land, TopographicRegion.Land,
      TopographicRegion.Land] : List TopographicRegion).length = 2 * 2 :=
  (C7_dimensions_and_rendering (fun _ _ => -1) (fun _ => 0) 2 2 _ gen_run_land).1

/-- Claim C8: for a raw noise sample in `[NOISE_MIN, NOISE_MAX] = [-1, 1]`
classified as water, the band lookup over the static table always finds a
band for the remapped depth — the `expect` panic of `depth_range` is
unreachable for valid noise. -/
theorem C8_band_lookup_total_for_water (q : ℚ)
    (hmin : NOISE_MIN ≤ q) (hmax : q ≤ NOISE_MAX)
    (hw : NoiseDepth.is_land ⟨q⟩ = false) :
    (Depth.ofNoise ⟨q⟩).depth_range.isSome = true := by
  have hlo : NOISE_LAND_MIN ≤ q := by
    have hq : ¬ (q < NOISE_LAND_MIN) := by
      have hv := hw
      simp only [NoiseDepth.is_land, decide_eq_false_iff_not] at hv
      exact hv
    exact not_lt.mp hq
  obtain ⟨hb1, hb2⟩ := ofNoise_val_bounds q hlo hmax
  rw [DEPTH_MIN] at hb1
  rw [DEPTH_MAX] at hb2
  exact depth_range_isSome_of_bounds _ hb1 hb2

/-- Claim C8, witness at the water sample 0. -/
theorem C8_band_lookup_total_for_water_witness :
    (Depth.ofNoise ⟨0⟩).depth_range.isSome = true :=
  C8_band_lookup_total_for_water 0 (by rw [NOISE_MIN]; norm_num)
    (by rw [NOISE_MAX]; norm_num)
    (by norm_num [NoiseDepth.is_land, NOISE_LAND_MIN, NOISE_MIN])

/-- Claim C9: every region of a successful generation run is either land or
a water region whose `structure` field is `None` and whose bottom
composition is `Hard` — generation never assigns any other value to either
field. -/
theorem C9_no_structure_bottom_hard (noise : ℕ → ℕ → ℚ) (rng : ℕ → ℕ)
    (width height : ℕ) (data : List TopographicRegion)
    (h : generate noise rng width height = some data) :
    data.all water_defaults_ok = true := by
  obtain ⟨_, hall⟩ := generate_length_all noise rng width height data h
  rw [List.all_eq_true]
  exact fun r hr => (hall r hr).1

/-- Claim C9, witness: a 1×1 run producing a vegetated water cell satisfies
the invariant. -/
theorem C9_no_structure_bottom_hard_witness :
    ([TopographicRegion.Water ⟨BottomComposition.Hard, some Vegetation.Grass, none, ⟨5⟩⟩] :
      List TopographicRegion).all water_defaults_ok = true :=
  C9_no_structure_bottom_hard (fun _ _ => 0) (fun _ => 0) 1 1 _ gen_run_grass

/-- Claim C10: `has_vegetation_type` is kind-blind — its result is the same
for any two queried kinds, equals `vegetation.isSome`, and is `false`
exactly when the `vegetation` field is `None` (the `matches!` in its body
uses an irrefutable binding pattern, so the stored kind is never compared). -/
theorem C10_has_vegetation_type_kind_blind (w : TopographicWaterRegion)
    (k1 k2 : Vegetation) :
    w.has_vegetation_type k1 = w.has_vegetation_type k2 ∧
    w.has_vegetation_type k1 = w.vegetation.isSome ∧
    (w.has_vegetation_type k1 = false ↔ w.vegetation = none) := by
  obtain ⟨b, v, s, d⟩ := w
  cases v <;> simp [TopographicWaterRegion.has_vegetation_type]
